import Mathlib

/-!
Verification of the virtual-fence simulation engine
(`virtual_fence_simulator_polygonal.py`): geometry (ray-casting
point-in-polygon), containment classification policy, crossing-event
detection, aggregate counts, entity-id assignment, persistence
round-trip, and the velocity renormalization of the motion step.

Rationals stand in for Python floats wherever the claims are about exact
arithmetic on concrete inputs; the velocity-magnitude claim, which talks
about `hypot`, is modelled over the reals.
-/

namespace VFence

/-! ## Geometry: ray-casting point-in-polygon (source lines 386-399) -/

/-- The epsilon `1e-12` added to the denominator in `point_in_polygon`. -/
def eps : ℚ := 1 / 10 ^ 12

/-- One iteration of the ray-casting loop: `pc` is the current vertex
`poly[i]`, `pp` the previous vertex `poly[j]`.  Mirrors
`((yi > y) != (yj > y)) and (x < (xj - xi) * (y - yi) / (yj - yi + 1e-12) + xi)`. -/
def edgeCross (x y : ℚ) (pc pp : ℚ × ℚ) : Bool :=
  (decide (pc.2 > y) != decide (pp.2 > y)) &&
    decide (x < (pp.1 - pc.1) * (y - pc.2) / (pp.2 - pc.2 + eps) + pc.1)

/-- `point_in_polygon(x, y, poly)`: empty polygon returns `True`; otherwise
the crossing parity over all edges `(poly[i], poly[(i-1) mod n])`. -/
def point_in_polygon (x y : ℚ) : List (ℚ × ℚ) → Bool
  | [] => true
  | p :: ps =>
      let poly := p :: ps
      let pairs := poly.zip (poly.getLastD p :: poly)
      pairs.foldl (fun inside e => if edgeCross x y e.1 e.2 then !inside else inside) false

/-- The square fence of the spec's worked example. -/
def sqFence : List (ℚ × ℚ) := [(0, 0), (10, 0), (10, 10), (0, 10)]

/-- Claim C1: for the square fence (0,0),(10,0),(10,10),(0,10) the
containment predicate returns true at (5,5), false at (15,5) and false at
(5,-0.001). -/
theorem C1_square_containment :
    point_in_polygon 5 5 sqFence = true ∧
    point_in_polygon 15 5 sqFence = false ∧
    point_in_polygon 5 (-(1 / 1000)) sqFence = false := by
  refine ⟨?_, ?_, ?_⟩ <;> norm_num [point_in_polygon, edgeCross, sqFence, eps]

/-- Claim C10: a polygon of exactly one vertex classifies every point as
outside — the single self-edge never satisfies the straddle test, so the
parity stays even and the result is false, not the vacuous true. -/
theorem C10_single_vertex_outside (x y : ℚ) (v : ℚ × ℚ) :
    point_in_polygon x y [v] = false := by
  simp [point_in_polygon, edgeCross]

/-! ## Containment classification policy (source lines 354-357, 381-384)

The tick loop classifies an animal at `(x, y)` from the canvas-polygon id
`fence_polygon_id` (`some _` once a fence has been finalized, `none`
before) and the collected vertex list `polygon_points`.  Python truthiness
of a list is non-emptiness; truthiness of the id is `isSome` (canvas ids
are positive). -/

/-- `_get_active_polygon_points`: the collected points when a fence has
been finalized and the list is non-empty, otherwise `None`. -/
def getActivePolygonPoints (fpid : Option Nat) (pts : List (ℚ × ℚ)) :
    Option (List (ℚ × ℚ)) :=
  if fpid.isSome && !pts.isEmpty then some pts else none

/-- The per-animal containment classification of `_tick_loop`:
`inside = True`; when `fence_polygon_id or len(polygon_points) >= 3`, pick
`poly` (the draft list when non-empty and no fence is finalized, else the
active polygon) and classify with `point_in_polygon` when `poly` is
truthy. -/
def classifyInside (fpid : Option Nat) (pts : List (ℚ × ℚ)) (x y : ℚ) : Bool :=
  if fpid.isSome || decide (3 ≤ pts.length) then
    let poly := if !pts.isEmpty && fpid.isNone then some pts
                else getActivePolygonPoints fpid pts
    match poly with
    | some p => if !p.isEmpty then point_in_polygon x y p else true
    | none => true
  else
    true

/-- Counterexample to claim C3: with no fence ever finalized but a draft
of 4 collected vertices (the square), the tick classification of the
point (15,5) consults the draft and returns false, not the unconditional
true the claim asserts. -/
theorem C3_counterexample :
    classifyInside none sqFence 15 5 = false := by
  norm_num [classifyInside, point_in_polygon, edgeCross, sqFence, eps]

/-- Claim C3 (amended): when no fence has been finalized, classification
is unconditionally true only while fewer than 3 draft vertices are
collected; with 3 or more draft vertices the tick loop classifies
against the draft vertex list itself. -/
theorem C3_inactive_fence_policy (pts : List (ℚ × ℚ)) (x y : ℚ) :
    (pts.length < 3 → classifyInside none pts x y = true) ∧
    (3 ≤ pts.length → classifyInside none pts x y = point_in_polygon x y pts) := by
  constructor
  · intro h
    simp [classifyInside, Nat.not_le.mpr h]
  · intro h
    have hne : pts ≠ [] := by
      cases pts with
      | nil => simp at h
      | cons a l => simp
    simp [classifyInside, h, hne]

/-- Witness for the amended C3 at a one-vertex draft. -/
theorem C3_inactive_fence_policy_witness :
    [((0 : ℚ), (0 : ℚ))].length < 3 ∧
    classifyInside none [((0 : ℚ), (0 : ℚ))] 5 5 = true :=
  ⟨by decide, (C3_inactive_fence_policy [(0, 0)] 5 5).1 (by decide)⟩

/-! ## Crossing-event detector (source lines 364-376)

Per tick, for one entity: the stored state `a.inside` is compared with the
freshly computed containment `inside`; the two sequential `if` statements
of the source are mirrored exactly. -/

/-- The two alert kinds the tick loop can append for one entity. -/
inductive AlertKind where
  | left
  | reentered
deriving DecidableEq, Repr

/-- One entity-tick of the detector, given stored state and the freshly
computed containment: first `if not inside and a.inside` (LEFT), then
`if inside and not a.inside` (RE-ENTERED), each updating the stored state
and appending its alert. -/
def tickDetect (stored now : Bool) : Bool × List AlertKind :=
  let s1 := if !now && stored then false else stored
  let a1 : List AlertKind := if !now && stored then [.left] else []
  if now && !s1 then (true, a1 ++ [.reentered]) else (s1, a1)

/-- Folding the detector over a run of freshly computed containment
values, accumulating the alerts appended for this entity. -/
def runDetect : Bool → List Bool → Bool × List AlertKind
  | s, [] => (s, [])
  | s, now :: rest =>
      let t := tickDetect s now
      let r := runDetect t.1 rest
      (r.1, t.2 ++ r.2)

theorem runDetect_replicate_true (j : Nat) :
    runDetect true (List.replicate j true) = (true, []) := by
  induction j with
  | zero => rfl
  | succ n ih => simp [List.replicate_succ, runDetect, tickDetect, ih]

/-- Claim C2: starting from stored state INSIDE, a run of 5 ticks of
computed containment false followed by `k ≥ 1` ticks of true appends
exactly the alerts LEFT then RE-ENTERED, never more; and a tick whose
computed containment equals the stored state appends no alert. -/
theorem C2_edge_triggered :
    (∀ k, 1 ≤ k →
      runDetect true (List.replicate 5 false ++ List.replicate k true)
        = (true, [AlertKind.left, AlertKind.reentered])) ∧
    (∀ s, tickDetect s s = (s, [])) := by
  constructor
  · intro k hk
    obtain ⟨j, rfl⟩ := Nat.exists_eq_add_of_le hk
    rw [show (1 + j) = j + 1 from Nat.add_comm 1 j]
    have h5 : List.replicate 5 false = [false, false, false, false, false] := rfl
    rw [h5, List.replicate_succ]
    simp [runDetect, tickDetect, runDetect_replicate_true j]
  · intro s
    cases s <;> rfl

/-- Witness for C2 at a run of 5 false ticks then 1 true tick. -/
theorem C2_edge_triggered_witness :
    1 ≤ 1 ∧
    runDetect true (List.replicate 5 false ++ List.replicate 1 true)
      = (true, [AlertKind.left, AlertKind.reentered]) :=
  ⟨by decide, C2_edge_triggered.1 1 (by decide)⟩

/-! ## Engine state

The persistence- and registry-relevant fields of an `Animal` and of the
application state.  Velocities are re-derived every tick (and live in the
real-valued motion model below); the fields carried here are the ones the
claims about state, persistence and counts read. -/

/-- The engine-relevant fields of `Animal`: `__init__` sets `inside = True`
and copies the global multiplier; `base_speed` is drawn at random. -/
structure Animal where
  id : Nat
  x : ℚ
  y : ℚ
  base_speed : ℚ
  speed_multiplier : ℚ
  inside : Bool
deriving DecidableEq, Repr

/-- The engine-relevant application state: draft/active polygon vertices,
the canvas id of the finalized fence (`none` before any finalization),
drawing-mode flag, the entity registry in insertion order, the id counter
and the global speed-multiplier variable. -/
structure SimState where
  polygon_points : List (ℚ × ℚ)
  fence_polygon_id : Option Nat
  draw_mode : Bool
  animals : List Animal
  next_animal_id : Nat
  speed_mul : ℚ
deriving DecidableEq, Repr

/-- `_create_animal(x, y)`: assign `next_animal_id`, increment the
counter, insert an `Animal` whose multiplier is the current global
`speed_mul` and whose base speed is the random draw `randBase`. -/
def create_animal (s : SimState) (x y randBase : ℚ) : SimState :=
  { s with
    next_animal_id := s.next_animal_id + 1,
    animals := s.animals ++
      [⟨s.next_animal_id, x, y, randBase, s.speed_mul, true⟩] }

/-- `finish_polygon`: with fewer than 3 collected points, show a warning
and return (`false` reports the failure); otherwise install the new
canvas polygon id and leave drawing mode. -/
def finish_polygon (s : SimState) (newFid : Nat) : SimState × Bool :=
  if s.polygon_points.length < 3 then (s, false)
  else ({ s with fence_polygon_id := some newFid, draw_mode := false }, true)

/-- Claim C9: an activation request with fewer than 3 collected vertices
reports failure and leaves the whole engine state — active fence and
collected vertex list included — exactly as it was. -/
theorem C9_invalid_activation_atomic (s : SimState) (newFid : Nat)
    (h : s.polygon_points.length < 3) :
    finish_polygon s newFid = (s, false) := by
  simp [finish_polygon, h]

/-- Witness for C9 at a two-vertex draft over a previously active fence. -/
theorem C9_invalid_activation_atomic_witness :
    (SimState.mk [(0, 0), (1, 1)] (some 4) true [] 1 1).polygon_points.length < 3 ∧
    finish_polygon ⟨[(0, 0), (1, 1)], some 4, true, [], 1, 1⟩ 7
      = (⟨[(0, 0), (1, 1)], some 4, true, [], 1, 1⟩, false) :=
  ⟨by decide, C9_invalid_activation_atomic ⟨[(0, 0), (1, 1)], some 4, true, [], 1, 1⟩ 7 (by decide)⟩

/-! ## Aggregate counts (source lines 401-405) -/

/-- `_update_counts`: `inside` is the number of registered animals whose
stored containment state is true, `outside` is `max(0, total - inside)`;
both are exposed to the dashboard. -/
def update_counts (animals : List Animal) : Int × Int :=
  let inside : Int := (animals.filter fun a => a.inside).length
  (inside, max 0 ((animals.length : Int) - inside))

/-- Claim C5: after every recount (the code recounts after every tick and
after every add/remove), the exposed counts satisfy
`insideCount + outsideCount = totalEntities`, with `insideCount` the
number of registered animals whose stored state is INSIDE. -/
theorem C5_counts_invariant (animals : List Animal) :
    (update_counts animals).1 + (update_counts animals).2 = animals.length ∧
    (update_counts animals).1 = (animals.filter fun a => a.inside).length := by
  have h : (animals.filter fun a => a.inside).length ≤ animals.length :=
    List.length_filter_le _ _
  constructor
  · simp only [update_counts]
    omega
  · rfl

/-! ## Entity-id assignment (source lines 289-296, 299-307)

Claim C7 quantifies over sequences of spawn and remove operations, so the
model keeps just the id registry: spawn (`_create_animal`) hands out
`next_animal_id` and increments it; `remove_last` pops the maximum key
when the registry is non-empty. -/

/-- The id registry: ids of live animals in insertion order, plus the
monotone counter. -/
structure Registry where
  ids : List Nat
  next_id : Nat
deriving DecidableEq, Repr

/-- The two registry operations of claim C7. -/
inductive RegOp where
  | spawn
  | removeLast
deriving DecidableEq, Repr

/-- `remove_last_animal`: no-op on an empty registry, otherwise pop the
maximum id. -/
def removeLastAnimal (r : Registry) : Registry :=
  if r.ids.isEmpty then r
  else { r with ids := r.ids.erase (r.ids.foldl max 0) }

/-- One registry operation; the second component lists the ids created by
the operation (spawn creates one, removal creates none). -/
def regStep (r : Registry) : RegOp → Registry × List Nat
  | .spawn => ({ ids := r.ids ++ [r.next_id], next_id := r.next_id + 1 }, [r.next_id])
  | .removeLast => (removeLastAnimal r, [])

/-- Run a sequence of registry operations, accumulating every id ever
handed out, in creation order. -/
def regRun : Registry → List RegOp → Registry × List Nat
  | r, [] => (r, [])
  | r, op :: rest =>
      let t := regStep r op
      let u := regRun t.1 rest
      (u.1, t.2 ++ u.2)

/-- The registry at process start: empty, counter at 1. -/
def initRegistry : Registry := ⟨[], 1⟩

theorem regRun_created (ops : List RegOp) : ∀ r : Registry,
    List.Pairwise (· < ·) (regRun r ops).2 ∧
    (∀ i ∈ (regRun r ops).2, r.next_id ≤ i) := by
  induction ops with
  | nil => intro r; simp [regRun]
  | cons op rest ih =>
    intro r
    cases op with
    | spawn =>
      obtain ⟨h1, h2⟩ := ih { ids := r.ids ++ [r.next_id], next_id := r.next_id + 1 }
      refine ⟨?_, ?_⟩
      · simp only [regRun, regStep, List.singleton_append]
        exact List.pairwise_cons.mpr
          ⟨fun i hi => Nat.lt_of_succ_le (h2 i hi), h1⟩
      · simp only [regRun, regStep, List.singleton_append]
        intro i hi
        rcases List.mem_cons.mp hi with h | h
        · omega
        · exact Nat.le_of_succ_le (h2 i h)
    | removeLast =>
      obtain ⟨h1, h2⟩ := ih (removeLastAnimal r)
      have hnext : (removeLastAnimal r).next_id = r.next_id := by
        simp only [removeLastAnimal]
        split <;> rfl
      refine ⟨?_, ?_⟩
      · simpa [regRun, regStep] using h1
      · simpa [regRun, regStep, hnext] using h2

/-- Claim C7: over every sequence of spawn and remove operations from the
initial registry, the ids handed out are strictly increasing in creation
order — in particular no newly created entity ever receives an id that a
previously created entity held. -/
theorem C7_ids_never_reused (ops : List RegOp) :
    List.Pairwise (· < ·) (regRun initRegistry ops).2 ∧
    (regRun initRegistry ops).2.Nodup :=
  ⟨(regRun_created ops initRegistry).1,
   ((regRun_created ops initRegistry).1).imp ne_of_lt⟩

/-! ## Speed-multiplier propagation (source lines 46-47, 321-330)

`Animal.step` computes `speed = self.base_speed * self.speed_multiplier`
from the per-animal copy of the multiplier; the global `speed_mul`
variable is copied onto the animals only inside `start_simulation` (and
into newly created animals). -/

/-- The speed computed by `Animal.step` (line 47): the per-animal stored
multiplier, not the global variable. -/
def stepSpeed (a : Animal) : ℚ := a.base_speed * a.speed_multiplier

/-- Editing the speed-multiplier entry: updates only the global variable. -/
def set_speed_mul (s : SimState) (v : ℚ) : SimState := { s with speed_mul := v }

/-- `start_simulation` (state part): copies the global multiplier onto
every registered animal before the first tick. -/
def start_simulation (s : SimState) : SimState :=
  { s with animals := s.animals.map fun a => { a with speed_multiplier := s.speed_mul } }

/-- A running-simulation state whose single animal carries the multiplier
copied at the last simulation start. -/
def c8state : SimState :=
  { polygon_points := [], fence_polygon_id := none, draw_mode := false,
    animals := [⟨1, 0, 0, 1, 1, true⟩], next_animal_id := 2, speed_mul := 1 }

/-- Counterexample to claim C8: after the global multiplier is changed
from 1 to 2 between ticks of a running simulation, the next tick still
computes the animal's speed with the old per-animal multiplier
(`1 * 1 = 1`), not `baseSpeed` times the new value (`1 * 2 = 2`). -/
theorem C8_counterexample :
    (set_speed_mul c8state 2).animals.map stepSpeed
      ≠ (set_speed_mul c8state 2).animals.map fun a => a.base_speed * 2 := by
  simp only [set_speed_mul, c8state, stepSpeed, List.map_cons, List.map_nil]
  intro h
  have h1 : (1 : ℚ) * 1 = 1 * 2 := (List.cons.injEq _ _ _ _ ▸ h).1
  norm_num at h1

/-- Claim C8 (amended): a change of the global multiplier takes effect at
the next simulation start — after `start_simulation`, every registered
animal's step computes its speed as `baseSpeed` times the new value. -/
theorem C8_multiplier_applied_on_start (s : SimState) (v : ℚ) (a : Animal)
    (h : a ∈ (start_simulation (set_speed_mul s v)).animals) :
    stepSpeed a = a.base_speed * v := by
  simp only [start_simulation, set_speed_mul, List.mem_map] at h
  obtain ⟨b, hb, rfl⟩ := h
  rfl

/-- Witness for the amended C8: the animal of `c8state` after the
multiplier is set to 2 and the simulation is restarted. -/
theorem C8_multiplier_applied_on_start_witness :
    (⟨1, 0, 0, 1, 2, true⟩ : Animal)
        ∈ (start_simulation (set_speed_mul c8state 2)).animals ∧
    stepSpeed ⟨1, 0, 0, 1, 2, true⟩ = (1 : ℚ) * 2 :=
  ⟨by simp [start_simulation, set_speed_mul, c8state],
   C8_multiplier_applied_on_start c8state 2 ⟨1, 0, 0, 1, 2, true⟩
     (by simp [start_simulation, set_speed_mul, c8state])⟩

/-! ## Persistence (source lines 429-448, 450-493)

`save_config` snapshots the vertex list and, per animal,
`(id, x, y, base_speed, speed_multiplier)` in registry insertion order.
`load_config` replaces fence and registry wholesale: it resets
`next_animal_id` to 1 and re-creates each entity with `_create_animal`
(which assigns a fresh sequential id and a fresh random base speed) and
then overwrites the new entity's base speed and multiplier with the
persisted values. -/

/-- The persisted fields of the config document that the round-trip claim
reads (canvas size, tick period, colors and sizes are also saved but are
not part of the claim). -/
structure Config where
  speed_mul : ℚ
  polygon_points : List (ℚ × ℚ)
  animals : List (Nat × ℚ × ℚ × ℚ × ℚ)
deriving DecidableEq, Repr

/-- `save_config`: the saved fence vertex sequence and entity snapshots
`(id, x, y, base_speed, speed_multiplier)` in registry order. -/
def save_config (s : SimState) : Config :=
  { speed_mul := s.speed_mul,
    polygon_points := s.polygon_points,
    animals := s.animals.map fun a =>
      (a.id, a.x, a.y, a.base_speed, a.speed_multiplier) }

/-- The in-place overwrite `new.base_speed = base; new.speed_multiplier
= mult` of the dict entry with key `aid`. -/
def overwriteSpeed (l : List Animal) (aid : Nat) (base mult : ℚ) : List Animal :=
  l.map fun a =>
    if a.id = aid then { a with base_speed := base, speed_multiplier := mult } else a

/-- Loading one persisted entity entry: `_create_animal(float(x),
float(y))` (fresh id, random base `rb`), then overwrite the base speed
and multiplier of the animal with id `next_animal_id - 1`. -/
def load_entry (s : SimState) (e : Nat × ℚ × ℚ × ℚ × ℚ) (rb : ℚ) : SimState :=
  let s1 := create_animal s e.2.1 e.2.2.1 rb
  { s1 with animals := overwriteSpeed s1.animals (s1.next_animal_id - 1) e.2.2.2.1 e.2.2.2.2 }

/-- The entity-loading loop of `load_config`; `rbs` supplies the random
base-speed draws made by `_create_animal`, one per entry. -/
def loadAnimals : SimState → List (Nat × ℚ × ℚ × ℚ × ℚ) → List ℚ → SimState
  | s, [], _ => s
  | s, e :: rest, rbs => loadAnimals (load_entry s e (rbs.headD 0)) rest rbs.tail

/-- `load_config` on a parsed document: install the persisted
multiplier and vertex list (empty list when the saved list is falsy),
redraw the fence when it has at least 3 vertices (fresh canvas id
`newFid`), clear the registry, reset the id counter to 1 and re-create
the entities. -/
def load_config (s : SimState) (cfg : Config) (newFid : Nat) (rbs : List ℚ) : SimState :=
  let pts := if cfg.polygon_points.isEmpty then [] else cfg.polygon_points
  loadAnimals
    { s with
      speed_mul := cfg.speed_mul,
      polygon_points := pts,
      fence_polygon_id := if 3 ≤ pts.length then some newFid else none,
      animals := [],
      next_animal_id := 1 }
    cfg.animals rbs

/-- The animals the loading loop inserts for the given entries when the
counter starts at `n`: sequential ids, positions and speed fields from
the entries, containment state reset to true. -/
def mkLoaded : Nat → List (Nat × ℚ × ℚ × ℚ × ℚ) → List Animal
  | _, [] => []
  | n, e :: rest => ⟨n, e.2.1, e.2.2.1, e.2.2.2.1, e.2.2.2.2, true⟩ :: mkLoaded (n + 1) rest

/-- The id-independent data of an animal that the round-trip claim
compares: position, base speed and multiplier. -/
def animalData (a : Animal) : ℚ × ℚ × ℚ × ℚ := (a.x, a.y, a.base_speed, a.speed_multiplier)

theorem loadAnimals_spec (entries : List (Nat × ℚ × ℚ × ℚ × ℚ)) :
    ∀ (s : SimState) (rbs : List ℚ),
      (∀ a ∈ s.animals, a.id < s.next_animal_id) →
      loadAnimals s entries rbs =
        { s with
          animals := s.animals ++ mkLoaded s.next_animal_id entries,
          next_animal_id := s.next_animal_id + entries.length } := by
  induction entries with
  | nil => intro s rbs h; simp [loadAnimals, mkLoaded]
  | cons e rest ih =>
    intro s rbs h
    have hstep : load_entry s e (rbs.headD 0) =
        { s with
          animals := s.animals ++ [⟨s.next_animal_id, e.2.1, e.2.2.1, e.2.2.2.1, e.2.2.2.2, true⟩],
          next_animal_id := s.next_animal_id + 1 } := by
      have hmap : s.animals.map (fun a =>
          if a.id = s.next_animal_id then
            { a with base_speed := e.2.2.2.1, speed_multiplier := e.2.2.2.2 } else a)
          = s.animals := by
        rw [List.map_congr_left fun a ha => if_neg (Nat.ne_of_lt (h a ha))]
        simp
      simp [load_entry, create_animal, overwriteSpeed, hmap]
    have hinv : ∀ a ∈ (load_entry s e (rbs.headD 0)).animals,
        a.id < (load_entry s e (rbs.headD 0)).next_animal_id := by
      rw [hstep]
      intro a ha
      rcases List.mem_append.mp ha with h1 | h1
      · exact Nat.lt_succ_of_lt (h a h1)
      · simp at h1
        subst h1
        exact Nat.lt_succ_self _
    calc loadAnimals s (e :: rest) rbs
        = loadAnimals (load_entry s e (rbs.headD 0)) rest rbs.tail := rfl
      _ = _ := by
          rw [ih _ rbs.tail hinv, hstep]
          simp [mkLoaded, List.append_assoc]
          omega

theorem mkLoaded_of_saved (l : List Animal) : ∀ n : Nat,
    (mkLoaded n (l.map fun a =>
        (a.id, a.x, a.y, a.base_speed, a.speed_multiplier))).map animalData
      = l.map animalData ∧
    (mkLoaded n (l.map fun a =>
        (a.id, a.x, a.y, a.base_speed, a.speed_multiplier))).map Animal.id
      = List.range' n l.length := by
  induction l with
  | nil => intro n; simp [mkLoaded]
  | cons a rest ih =>
    intro n
    obtain ⟨h1, h2⟩ := ih (n + 1)
    refine ⟨?_, ?_⟩
    · simp only [List.map_cons, mkLoaded, h1, animalData]
    · simp only [List.map_cons, mkLoaded, h2, List.length_cons, List.range'_succ]

/-- Counterexample to claim C4: a reachable registry with entity ids
1, 2, 4 (spawn three, remove the last, spawn again).  Saving and loading
re-creates the entities with fresh sequential ids 1, 2, 3, so the loaded
ids do not match the saved ones, and the counter ends at 4, not at one
past the highest saved id. -/
def c4state : SimState :=
  { polygon_points := [], fence_polygon_id := none, draw_mode := false,
    animals := [⟨1, 0, 0, 1, 1, true⟩, ⟨2, 0, 0, 1, 1, true⟩, ⟨4, 0, 0, 1, 1, true⟩],
    next_animal_id := 5, speed_mul := 1 }

/-- Counterexample theorem for claim C4 at `c4state`. -/
theorem C4_counterexample :
    (load_config c4state (save_config c4state) 1 []).animals.map Animal.id
      ≠ c4state.animals.map Animal.id := by
  have h : (load_config c4state (save_config c4state) 1 []).animals.map Animal.id
      = [1, 2, 3] := by
    rw [load_config, loadAnimals_spec _ _ _ (by intro a ha; simp [c4state, save_config] at ha)]
    simp [c4state, save_config, mkLoaded]
  rw [h]
  simp [c4state]

/-- Claim C4 (amended): saving and then loading reproduces the fence
vertex sequence exactly and the entity sequence's positions, base speeds
and multipliers in order (speed fields from the persisted values, not
re-randomized, whatever the random draws `rbs`); the loaded ids are
renumbered sequentially 1..n in saved order, and the next-id counter ends
at one past the number of loaded entities. -/
theorem C4_roundtrip (s : SimState) (newFid : Nat) (rbs : List ℚ) :
    (load_config s (save_config s) newFid rbs).polygon_points = s.polygon_points ∧
    (load_config s (save_config s) newFid rbs).animals.map animalData
      = s.animals.map animalData ∧
    (load_config s (save_config s) newFid rbs).animals.map Animal.id
      = List.range' 1 s.animals.length ∧
    (load_config s (save_config s) newFid rbs).next_animal_id
      = s.animals.length + 1 := by
  have hload := loadAnimals_spec (save_config s).animals
    { s with
      speed_mul := (save_config s).speed_mul,
      polygon_points := if (save_config s).polygon_points.isEmpty then []
                        else (save_config s).polygon_points,
      fence_polygon_id := if 3 ≤ (if (save_config s).polygon_points.isEmpty then []
                                  else (save_config s).polygon_points).length
                          then some newFid else none,
      animals := [],
      next_animal_id := 1 }
    rbs (by intro a ha; simp at ha)
  have hpts : (if (save_config s).polygon_points.isEmpty then []
               else (save_config s).polygon_points) = s.polygon_points := by
    simp only [save_config]
    split
    · rename_i hemp
      exact (List.isEmpty_iff.mp hemp).symm
    · rfl
  obtain ⟨hdata, hids⟩ := mkLoaded_of_saved s.animals 1
  refine ⟨?_, ?_, ?_, ?_⟩
  · rw [load_config]
    simp only [hload]
    exact hpts
  · rw [load_config]
    simp only [hload, List.nil_append]
    exact hdata
  · rw [load_config]
    simp only [hload, List.nil_append]
    simpa [save_config] using hids
  · rw [load_config]
    simp only [hload]
    simp only [save_config, List.length_map]
    omega

/-! ## Motion step: velocity renormalization (source lines 46-56)

`Animal.step` over the reals (the claim's own reading of the float code):
wander `dx, dy` drawn from `U(-0.25, 0.25)` is taken as an explicit
input, then `n = max(1e-6, hypot(vx, vy))` and both components are scaled
by `speed / n`. -/

/-- `math.hypot`. -/
noncomputable def hypot (x y : ℝ) : ℝ := Real.sqrt (x * x + y * y)

/-- The velocity produced by one `Animal.step` with pre-step velocity
`(vx, vy)`, wander draw `(dx, dy)`, and `speed = base_speed *
speed_multiplier`. -/
noncomputable def stepVel (base mult vx vy dx dy : ℝ) : ℝ × ℝ :=
  let speed := base * mult
  let wx := vx + dx
  let wy := vy + dy
  let n := max (1e-6) (hypot wx wy)
  (wx / n * speed, wy / n * speed)

/-- Counterexample to claim C6: base speed 1, multiplier 1, pre-step
velocity (1/5, 0) and wander draw (-1/5, 0) — an admissible draw, since
1/5 ≤ 0.25.  The post-wander velocity is exactly (0, 0); the epsilon
floor makes the division safe but the renormalized velocity is (0, 0),
whose magnitude 0 does not equal `baseSpeed * speedMultiplier = 1`. -/
theorem C6_counterexample :
    hypot (stepVel 1 1 (1 / 5) 0 (-(1 / 5)) 0).1
          (stepVel 1 1 (1 / 5) 0 (-(1 / 5)) 0).2 ≠ 1 * 1 := by
  have h0 : ((1 : ℝ) / 5 + -(1 / 5)) = 0 := by ring
  simp only [stepVel, h0]
  norm_num [hypot]

/-- Claim C6 (amended): after one motion step the velocity magnitude
equals `baseSpeed * speedMultiplier` (exactly, over the reals) whenever
the post-wander velocity is non-degenerate, i.e. its norm reaches the
epsilon floor `1e-6`; in the degenerate case the magnitude falls short of
the speed (see the counterexample), the floor only keeping the division
finite. -/
theorem C6_renormalized_speed (base mult vx vy dx dy : ℝ)
    (hb : 0 ≤ base) (hm : 0 ≤ mult)
    (h : (1e-6 : ℝ) ≤ hypot (vx + dx) (vy + dy)) :
    hypot (stepVel base mult vx vy dx dy).1 (stepVel base mult vx vy dx dy).2
      = base * mult := by
  have h' : (1e-6 : ℝ) ≤ Real.sqrt ((vx + dx) * (vx + dx) + (vy + dy) * (vy + dy)) := by
    simpa [hypot] using h
  have hpos : (0 : ℝ) < Real.sqrt ((vx + dx) * (vx + dx) + (vy + dy) * (vy + dy)) :=
    lt_of_lt_of_le (by norm_num) h'
  have hs : (0 : ℝ) ≤ base * mult := mul_nonneg hb hm
  simp only [stepVel, hypot, max_eq_right h']
  set wx := vx + dx
  set wy := vy + dy
  set S := base * mult
  set N := Real.sqrt (wx * wx + wy * wy)
  have key : (wx / N * S) * (wx / N * S) + (wy / N * S) * (wy / N * S)
      = (S / N) ^ 2 * (wx * wx + wy * wy) := by ring
  rw [key, Real.sqrt_mul (sq_nonneg _), Real.sqrt_sq (div_nonneg hs hpos.le)]
  exact div_mul_cancel₀ S (ne_of_gt hpos)

/-- Witness for the amended C6 at base 1, multiplier 1, pre-step velocity
(1, 0) and zero wander. -/
theorem C6_renormalized_speed_witness :
    ((1e-6 : ℝ) ≤ hypot (1 + 0) (0 + 0)) ∧
    hypot (stepVel 1 1 1 0 0 0).1 (stepVel 1 1 1 0 0 0).2 = 1 * 1 :=
  ⟨by norm_num [hypot],
   C6_renormalized_speed 1 1 1 0 0 0 (by norm_num) (by norm_num) (by norm_num [hypot])⟩

end VFence
